import Mathlib

/-!
Verification of the go-epub package-assembly engine.

The metadata core (`epub` struct, `NewEpub`, the `SetX` mutators and the
accessors) is embedded directly from `src/epub.go`.  The owned documents
(`pkgdoc`, `toc`), the content registry (`AddImage`, `AddSection`) and the
archive serializer (`Write`) are declared and called from `src/epub.go` and
its tests but their bodies are not in `src/`; those parts are modelled from
the specification, and each such definition is marked accordingly.

Go pointer-receiver methods that mutate the receiver are embedded as pure
functions returning the updated value; a possibly-nil pointer field is an
`Option`; a Go `(value, error)` pair is returned as a product with an
`Option` error (or an `Except`).  External collaborators — UUID generation
in `NewEpub`, toc-template initialization in `newToc`, content-source
fetching in `AddImage`, destination I/O in `Write` — are passed in as
explicit arguments.
-/

namespace GoEpub

/-- Modelled from the spec: the error values surfaced by the missing
registry/serializer code (spec §7 names `DuplicateNameError`,
`DuplicateIDError`, `UnknownManifestIDError`, `SourceUnreadableError`,
`WriteFailedError`). -/
inductive EpubError where
  | duplicateName
  | duplicateID
  | unknownManifestID
  | sourceUnreadable
  | writeFailed
  deriving DecidableEq, Repr

/-- A generic Go error value (the `error` returned by `newToc`), carrying
its message. -/
structure GoError where
  msg : String
  deriving DecidableEq, Repr

/-- Modelled from the spec: one manifest entry of the Package Document Model
(spec §3: id, href, media-type, optional property tags).  The `pkgdoc`
implementation is not in `src/`. -/
structure ManifestEntry where
  id : String
  href : String
  mediaType : String
  properties : Option String
  deriving DecidableEq, Repr

/-- Modelled from the spec: the Package Document Model state (spec §3/§4.2:
title, language, author, unique identifier, manifest, spine).  The `pkgdoc`
struct is not in `src/`; `src/epub.go` only calls its setters. -/
structure Pkgdoc where
  author : String
  lang : String
  title : String
  uuid : String
  manifest : List ManifestEntry
  spine : List String
  deriving DecidableEq, Repr

/-- The two fixed initial manifest entries (spec §4.2: "Initial manifest
contains two fixed entries (navigation document, and a legacy-compatible
navigation-control file)"; exact attribute values from the package-document
template in the repository's test file). -/
def initialManifest : List ManifestEntry :=
  [ { id := "nav", href := "nav.xhtml", mediaType := "application/xhtml+xml",
      properties := some "nav" },
    { id := "ncx", href := "toc.ncx", mediaType := "application/x-dtbncx+xml",
      properties := none } ]

/-- Modelled from the spec: `newPkgdoc` (called by `NewEpub` in
`src/epub.go`, body not in `src/`): fresh package document with empty
metadata, the two fixed manifest entries, and an empty spine. -/
def newPkgdoc : Pkgdoc :=
  { author := "", lang := "", title := "", uuid := "",
    manifest := initialManifest, spine := [] }

/-- Modelled from the spec: `pkgdoc.setAuthor` — pure field replacement
(spec §4.2). -/
def Pkgdoc.setAuthor (p : Pkgdoc) (author : String) : Pkgdoc :=
  { p with author := author }

/-- Modelled from the spec: `pkgdoc.setLang` — pure field replacement
(spec §4.2). -/
def Pkgdoc.setLang (p : Pkgdoc) (lang : String) : Pkgdoc :=
  { p with lang := lang }

/-- Modelled from the spec: `pkgdoc.setTitle` — pure field replacement
(spec §4.2). -/
def Pkgdoc.setTitle (p : Pkgdoc) (title : String) : Pkgdoc :=
  { p with title := title }

/-- Modelled from the spec: `pkgdoc.setUUID` — pure field replacement
(spec §4.2). -/
def Pkgdoc.setUUID (p : Pkgdoc) (uuid : String) : Pkgdoc :=
  { p with uuid := uuid }

/-- Modelled from the spec: one Navigation Entry (spec §3: title + href
pair). -/
structure NavPoint where
  title : String
  href : String
  deriving DecidableEq, Repr

/-- Modelled from the spec: the Navigation Document Model state (spec §4.3:
it mirrors the Book's title and UUID and holds the ordered nav-point list;
it has no language or author field).  The `toc` struct is not in `src/`;
`src/epub.go` only calls its setters. -/
structure Toc where
  title : String
  uuid : String
  navPoints : List NavPoint
  deriving DecidableEq, Repr

/-- Modelled from the spec: `toc.setTitle` (spec §4.3, mirrors Book-level
changes). -/
def Toc.setTitle (t : Toc) (title : String) : Toc :=
  { t with title := title }

/-- Modelled from the spec: `toc.setUUID` (spec §4.3). -/
def Toc.setUUID (t : Toc) (uuid : String) : Toc :=
  { t with uuid := uuid }

/-- Modelled from the spec: `toc.addNavPoint` appends in call order
(spec §4.3). -/
def Toc.addNavPoint (t : Toc) (title href : String) : Toc :=
  { t with navPoints := t.navPoints ++ [⟨title, href⟩] }

/-- The `epub` struct of `src/epub.go` (fields in source order: author,
lang, pkgdoc, title, toc, uuid).  The `toc` field is a pointer that is nil
until `newToc` succeeds, hence an `Option`. -/
structure Epub where
  author : String
  lang : String
  pkgdoc : Pkgdoc
  title : String
  toc : Option Toc
  uuid : String
  deriving DecidableEq, Repr

/-- `func (e *epub) SetAuthor(author string)` from `src/epub.go`: it calls
only `e.pkgdoc.setAuthor(author)`. -/
def Epub.SetAuthor (e : Epub) (author : String) : Epub :=
  { e with pkgdoc := e.pkgdoc.setAuthor author }

/-- `func (e *epub) SetLang(lang string)` from `src/epub.go`: sets `e.lang`
and calls `e.pkgdoc.setLang(lang)`. -/
def Epub.SetLang (e : Epub) (lang : String) : Epub :=
  { e with lang := lang, pkgdoc := e.pkgdoc.setLang lang }

/-- `func (e *epub) SetTitle(title string)` from `src/epub.go`: sets
`e.title` and calls `e.pkgdoc.setTitle` and `e.toc.setTitle`. -/
def Epub.SetTitle (e : Epub) (title : String) : Epub :=
  { e with title := title, pkgdoc := e.pkgdoc.setTitle title,
           toc := e.toc.map fun t => t.setTitle title }

/-- `func (e *epub) SetUUID(uuid string)` from `src/epub.go`: sets `e.uuid`
and calls `e.pkgdoc.setUUID` and `e.toc.setUUID`. -/
def Epub.SetUUID (e : Epub) (uuid : String) : Epub :=
  { e with uuid := uuid, pkgdoc := e.pkgdoc.setUUID uuid,
           toc := e.toc.map fun t => t.setUUID uuid }

/-- `func (e *epub) Lang() string` from `src/epub.go`. -/
def Epub.Lang (e : Epub) : String := e.lang

/-- `func (e *epub) Title() string` from `src/epub.go`. -/
def Epub.Title (e : Epub) : String := e.title

/-- `func (e *epub) Uuid() string` from `src/epub.go`. -/
def Epub.Uuid (e : Epub) : String := e.uuid

/-- `urnUuid` constant from `src/epub.go`. -/
def urnUuid : String := "urn:uuid:"

/-- `func NewEpub(title string) (*epub, error)` from `src/epub.go`.
External collaborators are explicit arguments: `genUUID` is the random
UUID produced by `uuid.NewV4().String()`, and `tocInit` is the outcome of
`newToc()` (whose body is not in `src/`).  On toc-init failure the
partially initialized value `e` is returned together with the error, before
any of the `SetX` calls; on success `SetLang "en"`, `SetTitle title` and
`SetUUID (urnUuid ++ genUUID)` run in that order. -/
def NewEpub (title : String) (genUUID : String)
    (tocInit : Except GoError Toc) : Epub × Option GoError :=
  let e : Epub :=
    { author := "", lang := "", pkgdoc := newPkgdoc, title := "",
      toc := none, uuid := "" }
  match tocInit with
  | .error err => (e, some err)
  | .ok t =>
      let e := { e with toc := some t }
      let e := e.SetLang "en"
      let e := e.SetTitle title
      let e := e.SetUUID (urnUuid ++ genUUID)
      (e, none)

/-! ## Package-document serialization (spec-modelled)

The serializer's body is not in `src/`; the spec (§4.2) says `serialize`
"emits a namespaced package document containing identifier, title,
language, optional author/creator, a last-modified timestamp, the full
manifest (order = insertion order), and the spine (order = insertion
order)".  We represent the emitted markup structurally, one node per
emitted element. -/

/-- Modelled from the spec: one element of the serialized package document
(spec §4.2; element names follow the package-document template in the
repository's test file). -/
inductive PkgNode where
  | identifierElem (v : String)
  | titleElem (v : String)
  | languageElem (v : String)
  | creatorElem (v : String)
  | modifiedElem (v : String)
  | manifestItem (id href mediaType : String) (properties : Option String)
  | spineItemref (idref : String)
  deriving DecidableEq, Repr

/-- Modelled from the spec: `pkgdoc.serialize` (spec §4.2).  Emits
identifier, title and language, the creator element only when an author
was set, the last-modified timestamp `ts` (an external clock input), then
the manifest and the spine in insertion order. -/
def Pkgdoc.serialize (p : Pkgdoc) (ts : String) : List PkgNode :=
  [PkgNode.identifierElem p.uuid, PkgNode.titleElem p.title,
   PkgNode.languageElem p.lang]
  ++ (if p.author = "" then [] else [PkgNode.creatorElem p.author])
  ++ [PkgNode.modifiedElem ts]
  ++ p.manifest.map (fun m => PkgNode.manifestItem m.id m.href m.mediaType m.properties)
  ++ p.spine.map PkgNode.spineItemref

/-- The values of the title elements of a serialized package document, in
emission order. -/
def titleValues (ns : List PkgNode) : List String :=
  ns.filterMap fun n =>
    match n with
    | .titleElem v => some v
    | _ => none

/-! ## Content registry, path allocator and archive serializer
(spec-modelled) -/

/-- Modelled from the spec: the Book-level state the missing registry code
keeps besides the `epub` struct of `src/epub.go` — the Path Allocator's
per-kind used-name sets and auto-sequence counters (spec §3/§4.1) and the
Content Registry's stored byte payloads (spec §3, Content Item). -/
structure BookState where
  epub : Epub
  usedImageNames : List String
  usedSectionNames : List String
  imageCounter : Nat
  sectionCounter : Nat
  images : List (String × List Nat)
  sections : List (String × String × String)
  deriving DecidableEq, Repr

/-- A `BookState` as produced by a successful `NewEpub`: fresh allocator
state and no stored content. -/
def NewBookState (title genUUID : String) (t : Toc) : BookState :=
  { epub := (NewEpub title genUUID (.ok t)).1,
    usedImageNames := [], usedSectionNames := [],
    imageCounter := 0, sectionCounter := 0,
    images := [], sections := [] }

/-- Zero-pad a natural number to 4 digits (spec §4.1: "4-digit zero-padded
sequence"). -/
def pad4 (n : Nat) : String :=
  let s := toString n
  String.mk (List.replicate (4 - s.length) '0') ++ s

/-- Modelled from the spec: `allocate(kind, requestedName)` of the Path
Allocator (spec §4.1).  A non-empty requested name is used verbatim unless
already used for that kind (`DuplicateNameError`); an empty one is
synthesized as `<kind-prefix><4-digit sequence>.<default-extension>`, the
counter advancing only on auto-allocation, and a collision of the auto
name with a previously used explicit name is also a `DuplicateNameError`.
Returns the path together with the updated used-set and counter. -/
def allocate (used : List String) (counter : Nat) (kindStem ext requestedName : String) :
    Except EpubError (String × List String × Nat) :=
  if requestedName ≠ "" then
    if requestedName ∈ used then .error .duplicateName
    else .ok (requestedName, requestedName :: used, counter)
  else
    let name := kindStem ++ pad4 (counter + 1) ++ ext
    if name ∈ used then .error .duplicateName
    else .ok (name, name :: used, counter + 1)

/-- Modelled from the spec: `addManifestEntry(id, href, mediaType,
properties?)` (spec §4.2): appends; a duplicate id fails with
`DuplicateIDError`. -/
def Pkgdoc.addManifestEntry (p : Pkgdoc) (id href mediaType : String)
    (properties : Option String) : Except EpubError Pkgdoc :=
  if p.manifest.any (fun m => m.id == id) then .error .duplicateID
  else .ok { p with manifest := p.manifest ++ [⟨id, href, mediaType, properties⟩] }

/-- Modelled from the spec: `addSpineEntry(id)` (spec §4.2): appends;
the id must already be in the manifest, else `UnknownManifestIDError`. -/
def Pkgdoc.addSpineEntry (p : Pkgdoc) (id : String) : Except EpubError Pkgdoc :=
  if p.manifest.any (fun m => m.id == id) then .ok { p with spine := p.spine ++ [id] }
  else .error .unknownManifestID

/-- Folder for section content inside the content root (spec §6 archive
layout: `<content-root>/<xhtml-folder>/<allocated-section-paths>`). -/
def xhtmlFolderName : String := "xhtml"

/-- Folder for image content inside the content root (spec §6). -/
def imageFolderName : String := "images"

/-- Modelled from the spec: `addSection(title, bodyMarkupFragment,
requestedFilename)` of the Content Registry (spec §4.4): allocate a path
(kind = section), then add one manifest entry, one spine entry and one
navigation entry, storing the body wrapped for the allocated path.  The
triple-write is atomic: on any sub-step failure the original state is
returned unchanged (roll-back) together with the error.  Manifest ids are
allocator-derived (the entry's href), the spec's sole id source. -/
def BookState.AddSection (b : BookState) (title body requestedFilename : String) :
    BookState × Except EpubError String :=
  match allocate b.usedSectionNames b.sectionCounter "section" ".xhtml" requestedFilename with
  | .error e => (b, .error e)
  | .ok (name, used, ctr) =>
      let href := xhtmlFolderName ++ "/" ++ name
      match b.epub.pkgdoc.addManifestEntry href href "application/xhtml+xml" none with
      | .error e => (b, .error e)
      | .ok p1 =>
          match p1.addSpineEntry href with
          | .error e => (b, .error e)
          | .ok p2 =>
              let e2 := { b.epub with
                          pkgdoc := p2,
                          toc := b.epub.toc.map fun t => t.addNavPoint title name }
              ({ b with epub := e2,
                        usedSectionNames := used, sectionCounter := ctr,
                        sections := b.sections ++ [(name, title, body)] },
               .ok name)

/-- Modelled from the spec: `addImage(source, requestedFilename)` of the
Content Registry (spec §4.4/§6): the source is resolved by an external
fetch collaborator, passed here as `resolved` (`none` when neither
local-file read nor URL fetch succeeds, giving `SourceUnreadableError`);
then a path is allocated (kind = image) and one manifest entry is added —
no spine or navigation entry, images are non-readable content.  The bytes
are stored keyed by path and the allocated path is returned.  On any
failure the original state is returned unchanged. -/
def BookState.AddImage (b : BookState) (resolved : Option (List Nat))
    (requestedFilename : String) : BookState × Except EpubError String :=
  match resolved with
  | none => (b, .error .sourceUnreadable)
  | some bs =>
      match allocate b.usedImageNames b.imageCounter "image" ".png" requestedFilename with
      | .error e => (b, .error e)
      | .ok (name, used, ctr) =>
          let href := imageFolderName ++ "/" ++ name
          match b.epub.pkgdoc.addManifestEntry href href "image/png" none with
          | .error e => (b, .error e)
          | .ok p1 =>
              ({ b with epub := { b.epub with pkgdoc := p1 },
                        usedImageNames := used, imageCounter := ctr,
                        images := b.images ++ [(name, bs)] },
               .ok name)

/-- Modelled from the spec: the content of one archive entry (spec §4.5);
textual entries, structured serialized documents, or raw content bytes. -/
inductive ZipContent where
  | text (s : String)
  | pkgDocument (nodes : List PkgNode)
  | navDocument (t : Option Toc)
  | ncxDocument (t : Option Toc)
  | contentBytes (bs : List Nat)
  deriving DecidableEq, Repr

/-- Modelled from the spec: one physical archive entry: name, whether it is
deflate-compressed (the mimetype entry must be stored with no
compression), and content (spec §4.5). -/
structure ZipEntry where
  name : String
  deflate : Bool
  content : ZipContent
  deriving DecidableEq, Repr

/-- Fixed name of the mimetype entry (OCF wrapper, spec §4.5/§6). -/
def mimetypeFilename : String := "mimetype"

/-- Content root folder of the archive (spec §6: `EPUB/package.opf` in the
container descriptor of the repository's test file). -/
def contentFolderName : String := "EPUB"

/-- Modelled from the spec: the archive the serializer emits on the success
path (spec §4.5): first the fixed mimetype entry holding the literal ASCII
text `application/epub+zip` stored with no compression, then the container
descriptor, the package document, both navigation forms, and every stored
content item under its kind's folder, all deflate-compressed. -/
def writeArchive (b : BookState) (ts : String) : List ZipEntry :=
  { name := mimetypeFilename, deflate := false,
    content := .text "application/epub+zip" } ::
  ({ name := "META-INF/container.xml", deflate := true,
     content := .text (contentFolderName ++ "/package.opf") } ::
   { name := contentFolderName ++ "/package.opf", deflate := true,
     content := .pkgDocument (b.epub.pkgdoc.serialize ts) } ::
   { name := contentFolderName ++ "/nav.xhtml", deflate := true,
     content := .navDocument b.epub.toc } ::
   { name := contentFolderName ++ "/toc.ncx", deflate := true,
     content := .ncxDocument b.epub.toc } ::
   (b.images.map fun i =>
     { name := contentFolderName ++ "/" ++ imageFolderName ++ "/" ++ i.1,
       deflate := true, content := .contentBytes i.2 })
   ++ (b.sections.map fun s =>
     { name := contentFolderName ++ "/" ++ xhtmlFolderName ++ "/" ++ s.1,
       deflate := true, content := .text s.2.2 }))

/-- Modelled from the spec: `Write(destinationPath)` (spec §4.5/§6):
destination I/O is external, its outcome passed as `ioOK`; on failure the
call returns `WriteFailedError` and the Book state is untouched; on
success it returns the serialized archive and also leaves the Book state
untouched (serialization only reads the models). -/
def BookState.Write (b : BookState) (ioOK : Bool) (ts : String) :
    BookState × Except EpubError (List ZipEntry) :=
  if ioOK then (b, .ok (writeArchive b ts)) else (b, .error .writeFailed)

/-! ## Sequences of metadata mutator calls -/

/-- One call to a metadata mutator of `src/epub.go`. -/
inductive SetOp where
  | title (v : String)
  | author (v : String)
  | lang (v : String)
  | uuid (v : String)
  deriving DecidableEq, Repr

/-- Apply one mutator call to the `epub` value, as `src/epub.go` does. -/
def applySetOp (e : Epub) : SetOp → Epub
  | .title v => e.SetTitle v
  | .author v => e.SetAuthor v
  | .lang v => e.SetLang v
  | .uuid v => e.SetUUID v

/-- Apply a sequence of mutator calls in order. -/
def applySetOps (e : Epub) (ops : List SetOp) : Epub :=
  ops.foldl applySetOp e

/-- The value the title field holds after a mutator sequence, starting from
`d`: the last `title` call's argument, or `d` when there is none. -/
def lastTitle (d : String) (ops : List SetOp) : String :=
  ops.foldl (fun acc op => match op with | .title v => v | _ => acc) d

/-- The last `author` call's argument, or `d` when there is none. -/
def lastAuthor (d : String) (ops : List SetOp) : String :=
  ops.foldl (fun acc op => match op with | .author v => v | _ => acc) d

/-- The last `lang` call's argument, or `d` when there is none. -/
def lastLang (d : String) (ops : List SetOp) : String :=
  ops.foldl (fun acc op => match op with | .lang v => v | _ => acc) d

/-- The last `uuid` call's argument, or `d` when there is none. -/
def lastUuid (d : String) (ops : List SetOp) : String :=
  ops.foldl (fun acc op => match op with | .uuid v => v | _ => acc) d

/-! ## One step of the public API -/

/-- One call to a public operation on a Book, with each external
collaborator's outcome inlined: `addImage` carries the fetch result,
`write` the destination-I/O outcome and the timestamp. -/
inductive BookOp where
  | setTitle (v : String)
  | setAuthor (v : String)
  | setLang (v : String)
  | setUUID (v : String)
  | addImage (resolved : Option (List Nat)) (requestedFilename : String)
  | addSection (title body requestedFilename : String)
  | write (ioOK : Bool) (ts : String)
  deriving DecidableEq, Repr

/-- Run one public operation: the updated Book state together with the
operation's result (the allocated path for the add operations, `""` for
the others). -/
def runOp (b : BookState) : BookOp → BookState × Except EpubError String
  | .setTitle v => ({ b with epub := b.epub.SetTitle v }, .ok "")
  | .setAuthor v => ({ b with epub := b.epub.SetAuthor v }, .ok "")
  | .setLang v => ({ b with epub := b.epub.SetLang v }, .ok "")
  | .setUUID v => ({ b with epub := b.epub.SetUUID v }, .ok "")
  | .addImage r f => b.AddImage r f
  | .addSection t body f => b.AddSection t body f
  | .write ioOK ts =>
      let (b2, r) := b.Write ioOK ts
      (b2, r.map fun _ => "")

/-! ## Helper lemmas -/

lemma titleValues_append (a b : List PkgNode) :
    titleValues (a ++ b) = titleValues a ++ titleValues b :=
  List.filterMap_append a b _

lemma titleValues_manifestNodes (l : List ManifestEntry) :
    titleValues (l.map fun m => PkgNode.manifestItem m.id m.href m.mediaType m.properties)
      = [] := by
  induction l with
  | nil => rfl
  | cons m l ih => simp only [List.map_cons, titleValues, List.filterMap_cons] at ih ⊢; exact ih

lemma titleValues_spineNodes (l : List String) :
    titleValues (l.map PkgNode.spineItemref) = [] := by
  induction l with
  | nil => rfl
  | cons s l ih => simp only [List.map_cons, titleValues, List.filterMap_cons] at ih ⊢; exact ih

lemma titleValues_creator (p : Pkgdoc) :
    titleValues (if p.author = "" then [] else [PkgNode.creatorElem p.author]) = [] := by
  by_cases h : p.author = ""
  · rw [if_pos h]; rfl
  · rw [if_neg h]; rfl

/-- A serialized package document always holds exactly one title element,
whose value is the model's title field. -/
lemma titleValues_serialize (p : Pkgdoc) (ts : String) :
    titleValues (p.serialize ts) = [p.title] := by
  unfold Pkgdoc.serialize
  rw [titleValues_append, titleValues_append, titleValues_append, titleValues_append,
      titleValues_manifestNodes, titleValues_spineNodes, titleValues_creator]
  rfl

/-- A fixed empty navigation document used to instantiate `newToc`
success outcomes at concrete inputs. -/
def tocInit0 : Toc := { title := "", uuid := "", navPoints := [] }

end GoEpub

namespace GoEpub

/-! ## Claims -/

/-- Title and UUID agreement among the Book, the package document and the
navigation document, together with language agreement between the Book and
the package document. -/
def metadataSynced (e : Epub) : Prop :=
  e.pkgdoc.title = e.title ∧ e.pkgdoc.uuid = e.uuid ∧ e.pkgdoc.lang = e.lang
  ∧ e.toc.map Toc.title = some e.title ∧ e.toc.map Toc.uuid = some e.uuid

lemma metadataSynced_applySetOp (e : Epub) (op : SetOp)
    (h : metadataSynced e) : metadataSynced (applySetOp e op) := by
  obtain ⟨h1, h2, h3, h4, h5⟩ := h
  obtain ⟨t, ht⟩ : ∃ t, e.toc = some t := by
    cases hc : e.toc with
    | none => rw [hc] at h4; cases h4
    | some t => exact ⟨t, rfl⟩
  cases op <;>
    simp_all [applySetOp, Epub.SetTitle, Epub.SetAuthor, Epub.SetLang, Epub.SetUUID,
              Pkgdoc.setTitle, Pkgdoc.setAuthor, Pkgdoc.setLang, Pkgdoc.setUUID,
              Toc.setTitle, Toc.setUUID, metadataSynced, ht]

lemma metadataSynced_applySetOps (e : Epub) (ops : List SetOp)
    (h : metadataSynced e) : metadataSynced (applySetOps e ops) := by
  induction ops generalizing e with
  | nil => exact h
  | cons op ops ih =>
      exact ih (applySetOp e op) (metadataSynced_applySetOp e op h)

lemma metadataSynced_newEpub (T genUUID : String) (t : Toc) :
    metadataSynced (NewEpub T genUUID (.ok t)).1 :=
  ⟨rfl, rfl, rfl, rfl, rfl⟩

/-- Claim C1, counterexample: after `SetAuthor "a"` on a freshly
constructed Book, the Book's own author field (`""`) differs from the
package document's author field (`"a"`), so the Book's field and the
package document's field for author are not kept equal by the mutators. -/
theorem C1_counterexample :
    ¬ (((NewEpub "t" "u" (Except.ok tocInit0)).1.SetAuthor "a").author
        = ((NewEpub "t" "u" (Except.ok tocInit0)).1.SetAuthor "a").pkgdoc.author) := by
  decide

/-- Claim C1, amended: `SetTitle` and `SetUUID` propagate to both owned
documents, and `SetLang` to the package document (the navigation document
has no language field), so after any sequence of mutator calls on a
successfully constructed Book the title and UUID agree among the Book, the
package document and the navigation document, and the language agrees
between the Book and the package document; `SetAuthor`, however, writes
only the package document's author field, which may therefore diverge from
the Book's own (never-written) author field. -/
theorem C1_amended_metadata_sync (T genUUID : String) (t : Toc) (ops : List SetOp) :
    metadataSynced (applySetOps ((NewEpub T genUUID (.ok t)).1) ops) :=
  metadataSynced_applySetOps _ ops (metadataSynced_newEpub T genUUID t)

/-- Claim C2: each metadata setter is a pure field replacement: after any
sequence of `SetTitle`/`SetAuthor`/`SetLang`/`SetUUID` calls, the state
observable through the accessors and the serialized package document
reflects only the last value set for each field, however many times each
setter was called. -/
theorem C2_last_write_wins (e : Epub) (ops : List SetOp) (ts : String) :
    (applySetOps e ops).Title = lastTitle e.title ops
    ∧ (applySetOps e ops).Lang = lastLang e.lang ops
    ∧ (applySetOps e ops).Uuid = lastUuid e.uuid ops
    ∧ (applySetOps e ops).pkgdoc.title = lastTitle e.pkgdoc.title ops
    ∧ (applySetOps e ops).pkgdoc.author = lastAuthor e.pkgdoc.author ops
    ∧ (applySetOps e ops).pkgdoc.lang = lastLang e.pkgdoc.lang ops
    ∧ (applySetOps e ops).pkgdoc.uuid = lastUuid e.pkgdoc.uuid ops
    ∧ titleValues ((applySetOps e ops).pkgdoc.serialize ts)
        = [lastTitle e.pkgdoc.title ops] := by
  induction ops generalizing e with
  | nil =>
      exact ⟨rfl, rfl, rfl, rfl, rfl, rfl, rfl, titleValues_serialize _ ts⟩
  | cons op ops ih =>
      obtain ⟨g1, g2, g3, g4, g5, g6, g7, g8⟩ := ih (applySetOp e op)
      cases op <;>
        exact ⟨g1, g2, g3, g4, g5, g6, g7, g8⟩

/-- Claim C3: for every title string T, constructing a new Book with
title T (with the navigation-document initialization succeeding) returns
no error, the Book's `Title` accessor returns exactly T, and the
serialized package document contains exactly one title element, with
value T. -/
theorem C3_new_book_title (T genUUID ts : String) (t : Toc) :
    (NewEpub T genUUID (.ok t)).2 = none
    ∧ ((NewEpub T genUUID (.ok t)).1).Title = T
    ∧ titleValues (((NewEpub T genUUID (.ok t)).1).pkgdoc.serialize ts) = [T] := by
  refine ⟨rfl, rfl, ?_⟩
  rw [titleValues_serialize]
  rfl

/-- Claim C4: a freshly constructed Book (before any `SetLang` call) has
language `"en"`: the `Lang` accessor returns `"en"` and the language
propagated to the package document is `"en"`. -/
theorem C4_default_lang (T genUUID : String) (t : Toc) :
    ((NewEpub T genUUID (.ok t)).1).Lang = "en"
    ∧ ((NewEpub T genUUID (.ok t)).1).pkgdoc.lang = "en" :=
  ⟨rfl, rfl⟩

lemma AddSection_cases (b : BookState) (t body f : String) :
    (∃ err, b.AddSection t body f = (b, .error err))
    ∨ (∃ name, (b.AddSection t body f).2 = .ok name) := by
  unfold BookState.AddSection
  split
  · exact .inl ⟨_, rfl⟩
  · dsimp only
    split
    · exact .inl ⟨_, rfl⟩
    · split
      · exact .inl ⟨_, rfl⟩
      · exact .inr ⟨_, rfl⟩

lemma AddSection_error_frame (b : BookState) (t body f : String) (err : EpubError)
    (h : (b.AddSection t body f).2 = .error err) : (b.AddSection t body f).1 = b := by
  rcases AddSection_cases b t body f with ⟨e, he⟩ | ⟨name, hn⟩
  · rw [he]
  · rw [hn] at h; cases h

lemma AddImage_cases (b : BookState) (r : Option (List Nat)) (f : String) :
    (∃ err, b.AddImage r f = (b, .error err))
    ∨ (∃ name, (b.AddImage r f).2 = .ok name) := by
  unfold BookState.AddImage
  split
  · exact .inl ⟨_, rfl⟩
  · split
    · exact .inl ⟨_, rfl⟩
    · dsimp only
      split
      · exact .inl ⟨_, rfl⟩
      · exact .inr ⟨_, rfl⟩

lemma AddImage_error_frame (b : BookState) (r : Option (List Nat)) (f : String)
    (err : EpubError) (h : (b.AddImage r f).2 = .error err) : (b.AddImage r f).1 = b := by
  rcases AddImage_cases b r f with ⟨e, he⟩ | ⟨name, hn⟩
  · rw [he]
  · rw [hn] at h; cases h

lemma Write_state_frame (b : BookState) (ioFlag : Bool) (ts : String) :
    (b.Write ioFlag ts).1 = b := by
  unfold BookState.Write
  split <;> rfl

/-- Claim C5: every public operation on a Book either fully succeeds or
fully fails: whenever an operation returns an error, the Book state after
the call (manifest, spine, navigation entries, stored bytes, allocator
state, metadata) is exactly the state before the call; in particular a
failing `AddSection` retains none of the manifest/spine/navigation
sub-steps it had begun. -/
theorem C5_atomic_operations (b : BookState) (op : BookOp) (err : EpubError)
    (h : (runOp b op).2 = .error err) : (runOp b op).1 = b := by
  cases op with
  | setTitle v => cases h
  | setAuthor v => cases h
  | setLang v => cases h
  | setUUID v => cases h
  | addImage r f => exact AddImage_error_frame b r f err h
  | addSection t body f => exact AddSection_error_frame b t body f err h
  | write ioFlag ts =>
      show (b.Write ioFlag ts).1 = b
      exact Write_state_frame b ioFlag ts

/-- Claim C5, witness: adding an image whose source could not be resolved
fails and leaves the freshly constructed Book state unchanged. -/
theorem C5_witness :
    (runOp (NewBookState "T" "u" tocInit0) (.addImage none "")).1
      = NewBookState "T" "u" tocInit0 :=
  C5_atomic_operations (NewBookState "T" "u" tocInit0) (.addImage none "")
    EpubError.sourceUnreadable rfl

lemma len3_ne_xhtmlHref (s f : String) (h3 : s.length = 3) : s ≠ "xhtml/" ++ f := by
  intro h
  have hl := congrArg String.length h
  rw [String.length_append, h3, show ("xhtml/" : String).length = 6 from rfl] at hl
  omega

/-- Claim C6: on a Book whose section allocator is fresh (no used section
names, sequence counter at its initial value, manifest still the two fixed
entries — the state right after construction), calling `AddSection` twice
with the same non-empty explicit filename succeeds the first time with
that filename and fails with `DuplicateNameError` the second time, while
calling it twice with an empty filename succeeds both times, auto-
allocating `section0001.xhtml` and then `section0002.xhtml` — two distinct
paths differing only in their 4-digit sequence number, starting at 1. -/
theorem C6_addSection_twice (b : BookState) (f s1 d1 s2 d2 : String) (hf : f ≠ "")
    (hused : b.usedSectionNames = []) (hctr : b.sectionCounter = 0)
    (hman : b.epub.pkgdoc.manifest = initialManifest) :
    ((b.AddSection s1 d1 f).2 = .ok f
      ∧ ((b.AddSection s1 d1 f).1.AddSection s2 d2 f).2 = .error .duplicateName)
    ∧ ((b.AddSection s1 d1 "").2 = .ok "section0001.xhtml"
      ∧ ((b.AddSection s1 d1 "").1.AddSection s2 d2 "").2 = .ok "section0002.xhtml") := by
  refine ⟨⟨?_, ?_⟩, ?_, ?_⟩ <;>
    simp [BookState.AddSection, allocate, Pkgdoc.addManifestEntry, Pkgdoc.addSpineEntry,
          hused, hctr, hman, initialManifest, xhtmlFolderName, hf,
          len3_ne_xhtmlHref "nav" f rfl, len3_ne_xhtmlHref "ncx" f rfl,
          show pad4 1 = "0001" from rfl, show pad4 2 = "0002" from rfl]

/-- Claim C6, witness: the two-call behaviour evaluated on a freshly
constructed Book with the explicit filename `a.xhtml`. -/
theorem C6_witness :
    (((NewBookState "T" "u" tocInit0).AddSection "s" "d" "a.xhtml").2 = .ok "a.xhtml"
      ∧ (((NewBookState "T" "u" tocInit0).AddSection "s" "d" "a.xhtml").1.AddSection
          "s2" "d2" "a.xhtml").2 = .error .duplicateName)
    ∧ (((NewBookState "T" "u" tocInit0).AddSection "s" "d" "").2 = .ok "section0001.xhtml"
      ∧ (((NewBookState "T" "u" tocInit0).AddSection "s" "d" "").1.AddSection
          "s2" "d2" "").2 = .ok "section0002.xhtml") :=
  C6_addSection_twice (NewBookState "T" "u" tocInit0) "a.xhtml" "s" "d" "s2" "d2"
    (by decide) rfl rfl rfl

/-- Claim C7: whenever `Write` succeeds, the produced archive's first
physical entry is the fixed mimetype entry, stored with no compression,
and its content is byte-identical to the literal ASCII string
`application/epub+zip`. -/
theorem C7_mimetype_first (b b2 : BookState) (ioFlag : Bool) (ts : String)
    (arch : List ZipEntry) (h : b.Write ioFlag ts = (b2, .ok arch)) :
    arch.head? = some { name := mimetypeFilename, deflate := false,
                        content := .text "application/epub+zip" } := by
  unfold BookState.Write at h
  split at h
  · simp only [Prod.mk.injEq, Except.ok.injEq] at h
    rw [← h.2]
    rfl
  · simp only [Prod.mk.injEq] at h
    exact Except.noConfusion h.2

/-- Claim C7, witness: writing a freshly constructed Book succeeds and the
archive's first entry is the uncompressed mimetype entry. -/
theorem C7_witness :
    (writeArchive (NewBookState "T" "u" tocInit0) "ts").head?
      = some { name := mimetypeFilename, deflate := false,
               content := .text "application/epub+zip" } :=
  C7_mimetype_first (NewBookState "T" "u" tocInit0) (NewBookState "T" "u" tocInit0)
    true "ts" (writeArchive (NewBookState "T" "u" tocInit0) "ts") rfl

/-- Claim C8: `SetAuthor a` writes `a` only into the owned package
document: the Book's own author field, the owned navigation document, and
every other field are left unchanged, and only the package document's
author field is replaced. -/
theorem C8_setAuthor_frame (e : Epub) (a : String) :
    e.SetAuthor a = { e with pkgdoc := { e.pkgdoc with author := a } } :=
  rfl

/-- Claim C9: when navigation-document initialization fails, `NewEpub`
returns the partially initialized Book value (fresh package document, no
toc, empty metadata — the `SetX` calls are skipped) together with the
error; on the success path it returns the Book and no error. -/
theorem C9_newEpub_error_path (title genUUID : String) (err : GoError) (t : Toc) :
    NewEpub title genUUID (.error err)
      = ({ author := "", lang := "", pkgdoc := newPkgdoc, title := "",
           toc := none, uuid := "" }, some err)
    ∧ (NewEpub title genUUID (.ok t)).2 = none :=
  ⟨rfl, rfl⟩

/-- Claim C10: each metadata setter modifies only its own logical field of
the Book: `SetTitle` leaves the Book's language, author and UUID fields
unchanged, `SetLang` leaves title, author and UUID unchanged, and
`SetUUID` leaves title, author and language unchanged, as observed through
the `Title`, `Lang` and `Uuid` accessors and the author field. -/
theorem C10_setters_frame (e : Epub) (v : String) :
    ((e.SetTitle v).Lang = e.Lang ∧ (e.SetTitle v).author = e.author
      ∧ (e.SetTitle v).Uuid = e.Uuid)
    ∧ ((e.SetLang v).Title = e.Title ∧ (e.SetLang v).author = e.author
      ∧ (e.SetLang v).Uuid = e.Uuid)
    ∧ ((e.SetUUID v).Title = e.Title ∧ (e.SetUUID v).author = e.author
      ∧ (e.SetUUID v).Lang = e.Lang) :=
  ⟨⟨rfl, rfl, rfl⟩, ⟨rfl, rfl, rfl⟩, ⟨rfl, rfl, rfl⟩⟩

end GoEpub
